import Mathlib

/-!
Formal model of the speech-input/output logic of the language-tutoring app
(`src/frontend/src/hooks/useWebSpeechAPI.js` and the unnamed hook file with
`useTextToSpeech`).  Pure state-transition functions mirror the JavaScript
event handlers and callbacks; asynchronous platform outcomes (backend
response, play success, synthesis availability) are passed in explicitly as
an environment value.
-/

namespace MyAgent

/-! ### String helpers

JavaScript `String.prototype.startsWith` / `includes` / `substring(0, 2)`
modelled on the character list of a Lean `String`. -/

/-- Does the character list `l` start with the character list `p`? -/
def listStartsWith : List Char → List Char → Bool
  | _, [] => true
  | [], _ :: _ => false
  | a :: as, b :: bs => a == b && listStartsWith as bs

/-- Does the character list `hay` contain `needle` as a contiguous run? -/
def listIncludes : List Char → List Char → Bool
  | [], needle => listStartsWith [] needle
  | h :: t, needle => listStartsWith (h :: t) needle || listIncludes t needle

/-- JS `s.startsWith(p)`. -/
def strStartsWith (s p : String) : Bool :=
  listStartsWith s.data p.data

/-- JS `s.includes(p)`. -/
def strIncludes (s p : String) : Bool :=
  listIncludes s.data p.data

/-- JS `s.substring(0, n)`: the first `n` characters of `s`. -/
def strTake (s : String) (n : Nat) : String :=
  ⟨s.data.take n⟩

/-! ### Speech capture (`useWebSpeechRecognition`) -/

/-- One entry of a platform recognition result event: `results[i][0].transcript`
together with `results[i].isFinal`. -/
structure RecResult where
  transcript : String
  isFinal : Bool
deriving DecidableEq, Repr

/-- The state held by `useWebSpeechRecognition`: the React state variables
plus the `finalTranscriptRef` mutable ref. -/
structure CaptureState where
  isListening : Bool
  transcript : String
  interimTranscript : String
  error : Option String
  isSupported : Bool
  finalTranscriptRef : String
deriving DecidableEq, Repr

/-- `recognition.onresult` (useWebSpeechAPI.js lines 45-63).  The event is
modelled as the list of results the loop visits (from `event.resultIndex`
on).  Final results are appended to the accumulated final transcript; interim
results are concatenated into a fresh interim transcript. -/
def onresult (ev : List RecResult) (s : CaptureState) : CaptureState :=
  let p := ev.foldl
    (fun acc r =>
      if r.isFinal then (acc.1 ++ r.transcript, acc.2)
      else (acc.1, acc.2 ++ r.transcript))
    (s.finalTranscriptRef, "")
  { s with finalTranscriptRef := p.1, transcript := p.1, interimTranscript := p.2 }

/-- The user-facing message chosen by the `switch` in `recognition.onerror`
(useWebSpeechAPI.js lines 71-86). -/
def errorMessage (code : String) : String :=
  if code = "no-speech" then "No speech detected. Please try again."
  else if code = "audio-capture" then "Microphone access denied or not available."
  else if code = "not-allowed" then "Microphone permission denied. Please allow microphone access."
  else if code = "network" then "Network error. Please check your internet connection."
  else "Speech recognition error: " ++ code

/-- `recognition.onerror` (useWebSpeechAPI.js lines 65-87): records the mapped
error message and forces `isListening` to `false`. -/
def onerror (code : String) (s : CaptureState) : CaptureState :=
  { s with error := some (errorMessage code), isListening := false }

/-- `resetTranscript` (useWebSpeechAPI.js lines 135-140). -/
def resetTranscript (s : CaptureState) : CaptureState :=
  { s with finalTranscriptRef := "", transcript := "", interimTranscript := "",
           error := none }

/-- The capture error taxonomy of the specification (section 3, `ErrorKind`). -/
inductive ErrorKind
  | noSpeech
  | audioCaptureDenied
  | permissionDenied
  | network
  | other
deriving DecidableEq, Repr

/-- The specification's fixed error-mapping table (section 4.1). -/
def specErrorKind (code : String) : ErrorKind :=
  if code = "no-speech" then .noSpeech
  else if code = "audio-capture" then .audioCaptureDenied
  else if code = "not-allowed" then .permissionDenied
  else if code = "network" then .network
  else .other

/-- Abstraction map: which `ErrorKind` each concrete user-facing message of
the code denotes. -/
def messageKind (msg : String) : ErrorKind :=
  if msg = "No speech detected. Please try again." then .noSpeech
  else if msg = "Microphone access denied or not available." then .audioCaptureDenied
  else if msg = "Microphone permission denied. Please allow microphone access." then .permissionDenied
  else if msg = "Network error. Please check your internet connection." then .network
  else .other

/-- The final segments of one result event, concatenated in order. -/
def evFinal : List RecResult → String
  | [] => ""
  | r :: rs => (if r.isFinal then r.transcript else "") ++ evFinal rs

/-- The interim segments of one result event, concatenated in order. -/
def evInterim : List RecResult → String
  | [] => ""
  | r :: rs => (if r.isFinal then "" else r.transcript) ++ evInterim rs

/-- All final segments of a sequence of result events, in arrival order. -/
def sessFinal : List (List RecResult) → String
  | [] => ""
  | ev :: evs => evFinal ev ++ sessFinal evs

/-- Folding a whole sequence of result events through `onresult`. -/
def processEvents (s : CaptureState) (evs : List (List RecResult)) : CaptureState :=
  evs.foldl (fun t ev => onresult ev t) s

/-! ### Voice selection (`preferredVoice`, useWebSpeechAPI.js lines 247-254) -/

/-- A platform synthesis voice: a BCP-47-like language tag and a name. -/
structure Voice where
  lang : String
  name : String
deriving DecidableEq, Repr

/-- `voice.lang.startsWith(languageCode.substring(0, 2))`. -/
def voiceMatches (languageCode : String) (v : Voice) : Bool :=
  strStartsWith v.lang (strTake languageCode 2)

/-- `voice.name.includes('Google')`: the name signals higher quality. -/
def voiceGoogle (v : Voice) : Bool :=
  strIncludes v.name "Google"

/-- The `preferredVoice` computation: first a voice whose `lang` starts with
the first two characters of the requested language tag and whose name
includes "Google", otherwise the first voice whose `lang` starts with that
prefix, otherwise none (JS `undefined`: the utterance keeps the platform
default voice). -/
def selectVoice (languageCode : String) (voices : List Voice) : Option Voice :=
  match voices.find? (fun v => voiceMatches languageCode v && voiceGoogle v) with
  | some v => some v
  | none => voices.find? (fun v => voiceMatches languageCode v)

/-! ### Enhanced text-to-speech (`useEnhancedTextToSpeech`) -/

/-- One `Audio` element created by `speak`: its identity, the object URL it
was created from, and whether it is currently playing. -/
structure AudioElem where
  id : Nat
  url : Nat
  playing : Bool
deriving DecidableEq, Repr

/-- One `SpeechSynthesisUtterance` handed to `speechSynthesis.speak`. -/
structure Utterance where
  text : String
  lang : String
  rate : ℚ
  pitch : ℚ
  volume : ℚ
  voice : Option Voice
deriving DecidableEq, Repr

/-- The state held by `useEnhancedTextToSpeech`, together with the ambient
resources it manipulates: every `Audio` element it created that has not been
garbage-collected, the live (unrevoked) object URLs, and the platform
synthesis queue. -/
structure TTSState where
  isSpeaking : Bool
  error : Option String
  audioRef : Option Nat
  audios : List AudioElem
  liveUrls : List Nat
  utterances : List Utterance
  nextId : Nat
  nextUrl : Nat
deriving DecidableEq, Repr

/-- The options object of `speak(text, options = {})`: every field may be
omitted. -/
structure SpeakOptions where
  languageCode : Option String := none
  rate : Option ℚ := none
  pitch : Option ℚ := none
  volume : Option ℚ := none
  useBackend : Option Bool := none
deriving DecidableEq, Repr

/-- The option values after the destructuring with defaults
(useWebSpeechAPI.js lines 163-169). -/
structure ResolvedOptions where
  languageCode : String
  rate : ℚ
  pitch : ℚ
  volume : ℚ
  useBackend : Bool
deriving DecidableEq, Repr

/-- The destructuring `const { languageCode = 'en-US', rate = 0.8,
pitch = 1.0, volume = 1.0, useBackend = true } = options`. -/
def resolveOptions (o : SpeakOptions) : ResolvedOptions where
  languageCode := o.languageCode.getD "en-US"
  rate := o.rate.getD 0.8
  pitch := o.pitch.getD 1.0
  volume := o.volume.getD 1.0
  useBackend := o.useBackend.getD true

/-- Outcome of the backend render call as observed by `speak`:
a network failure (fetch rejects), a non-ok response, an ok response whose
JSON lacks `audio_content`, or an ok response carrying audio. -/
inductive BackendResp
  | netError
  | notOk
  | okNoAudio
  | okAudio
deriving DecidableEq, Repr

/-- The asynchronous environment one `speak` invocation runs against. -/
structure SpeakEnv where
  backend : BackendResp
  playOk : Bool
  synthSupported : Bool
  voices : List Voice
deriving DecidableEq, Repr

/-- How the promise returned by `speak` settles. -/
inductive SpeakOutcome
  | resolved
  | rejected (msg : String)
deriving DecidableEq, Repr

/-- The browser-synthesis tail of `speak` (useWebSpeechAPI.js lines 224-259):
if the platform supports synthesis, build the utterance (with voice
selection) and queue it; otherwise throw. -/
def synthFallback (text : String) (r : ResolvedOptions) (env : SpeakEnv)
    (s : TTSState) : Except (String × TTSState) TTSState :=
  if env.synthSupported then
    let u : Utterance :=
      { text := text, lang := r.languageCode, rate := r.rate, pitch := r.pitch,
        volume := r.volume, voice := selectVoice r.languageCode env.voices }
    .ok { s with utterances := s.utterances ++ [u] }
  else
    .error ("Text-to-speech not supported in this browser", s)

/-- The body of the outer `try` of `speak` (useWebSpeechAPI.js lines
171-259).  An uncaught throw is returned as `.error` together with the state
at the point of the throw.  On the backend path, a created `Audio` element is
recorded with a fresh object URL and stored in `audioRef` — the previous
referent is neither paused nor revoked.  A failing `audio.play()` is caught
by the inner `catch` and falls through to the synthesis tail. -/
def speakBody (text : String) (r : ResolvedOptions) (env : SpeakEnv)
    (s : TTSState) : Except (String × TTSState) TTSState :=
  let s1 := { s with isSpeaking := true, error := none }
  if r.useBackend then
    match env.backend with
    | .okAudio =>
        let a : AudioElem := { id := s1.nextId, url := s1.nextUrl, playing := env.playOk }
        let s2 := { s1 with
          audios := s1.audios ++ [a]
          liveUrls := s1.liveUrls ++ [a.url]
          audioRef := some a.id
          nextId := s1.nextId + 1
          nextUrl := s1.nextUrl + 1 }
        if env.playOk then .ok s2
        else synthFallback text r env s2
    | _ => synthFallback text r env s1
  else
    synthFallback text r env s1

/-- `speak` (useWebSpeechAPI.js lines 162-266): resolve the options, run the
body, and let the outer `catch` turn any throw into `setError` +
`setIsSpeaking(false)`.  The returned promise settles as `SpeakOutcome`. -/
def speak (text : String) (opts : SpeakOptions) (env : SpeakEnv)
    (s : TTSState) : TTSState × SpeakOutcome :=
  let r := resolveOptions opts
  match speakBody text r env s with
  | .ok s' => (s', .resolved)
  | .error (msg, s') =>
      ({ s' with error := some msg, isSpeaking := false }, .resolved)

/-- Pause the audio element with identity `i` (JS `audio.pause()`). -/
def pauseAudio (i : Nat) (audios : List AudioElem) : List AudioElem :=
  audios.map (fun a => if a.id = i then { a with playing := false } else a)

/-- `stopSpeaking` (useWebSpeechAPI.js lines 268-281): pause the referenced
audio element and drop the ref, cancel platform synthesis when the platform
has it, and clear the speaking flag.  Note: no object URL is revoked here. -/
def stopSpeaking (synthSupported : Bool) (s : TTSState) : TTSState :=
  let audios :=
    match s.audioRef with
    | some i => pauseAudio i s.audios
    | none => s.audios
  { s with audios := audios, audioRef := none,
           utterances := if synthSupported then [] else s.utterances,
           isSpeaking := false }

/-- `audio.onended` (useWebSpeechAPI.js lines 203-206) together with the
platform fact that an ended element is no longer playing: clear the speaking
flag and revoke the element's object URL. -/
def audioOnEnded (a : AudioElem) (s : TTSState) : TTSState :=
  { s with isSpeaking := false,
           liveUrls := s.liveUrls.erase a.url,
           audios := s.audios.map (fun x => if x.id = a.id then { x with playing := false } else x) }

/-- `audio.onerror` (useWebSpeechAPI.js lines 208-212): clear the speaking
flag and revoke the object URL; the `throw` inside the handler escapes to no
catcher and is dropped. -/
def audioOnError (a : AudioElem) (s : TTSState) : TTSState :=
  { s with isSpeaking := false,
           liveUrls := s.liveUrls.erase a.url,
           audios := s.audios.map (fun x => if x.id = a.id then { x with playing := false } else x) }

/-- `utterance.onend` (useWebSpeechAPI.js lines 235-238): the utterance at
the head of the synthesis queue finishes; clear the speaking flag. -/
def uttOnEnd (s : TTSState) : TTSState :=
  { s with isSpeaking := false, utterances := s.utterances.drop 1 }

/-- `utterance.onerror` (useWebSpeechAPI.js lines 240-244): clear the
speaking flag and record the error. -/
def uttOnError (e : String) (s : TTSState) : TTSState :=
  { s with isSpeaking := false, error := some ("TTS Error: " ++ e),
           utterances := s.utterances.drop 1 }

/-- The number of simultaneously active audio/synthesis resources: playing
audio elements plus queued or active utterances. -/
def activeCount (s : TTSState) : Nat :=
  (s.audios.filter (fun a => a.playing)).length + s.utterances.length

/-- The initial state of `useEnhancedTextToSpeech`. -/
def ttsInit : TTSState :=
  { isSpeaking := false, error := none, audioRef := none, audios := [],
    liveUrls := [], utterances := [], nextId := 0, nextUrl := 0 }

/-! ### Basic text-to-speech (`useTextToSpeech` in the unnamed hook file)

This hook calls `apiService.textToSpeech` (axios: rejects on network failure
and on a non-2xx status), plays returned audio, and falls back to browser
synthesis when there is no `audio_content` or on a thrown error. -/

namespace BasicTTS

/-- Outcome of `apiService.textToSpeech` as observed by this `speak`:
axios rejects on both network failure and non-success status. -/
inductive BResp
  | throwErr
  | okNoAudio
  | okAudio
deriving DecidableEq, Repr

/-- The asynchronous environment of one `BasicTTS.speak` invocation. -/
structure BEnv where
  resp : BResp
  playOk : Bool
  synthSupported : Bool
deriving DecidableEq, Repr

/-- The state of `useTextToSpeech` (no error state variable exists here). -/
structure BState where
  isSpeaking : Bool
  audioRef : Option Nat
  audios : List AudioElem
  liveUrls : List Nat
  utterances : List Utterance
  nextId : Nat
  nextUrl : Nat
deriving DecidableEq, Repr

/-- The utterance built by both fallback sites of this hook: language as
requested, rate 0.8, platform-default pitch, volume and voice. -/
def fallbackUtt (text languageCode : String) : Utterance :=
  { text := text, lang := languageCode, rate := 0.8, pitch := 1.0,
    volume := 1.0, voice := none }

/-- The body of the `try` of `speak` (unnamed hook file lines 112-155).
`.error` carries the state at the point of the uncaught throw. -/
def speakBody (text languageCode : String) (env : BEnv) (s : BState) :
    Except BState BState :=
  let s1 := { s with isSpeaking := true }
  match env.resp with
  | .throwErr => .error s1
  | .okAudio =>
      let a : AudioElem := { id := s1.nextId, url := s1.nextUrl, playing := env.playOk }
      let s2 := { s1 with
        audios := s1.audios ++ [a]
        liveUrls := s1.liveUrls ++ [a.url]
        audioRef := some a.id
        nextId := s1.nextId + 1
        nextUrl := s1.nextUrl + 1 }
      if env.playOk then .ok s2 else .error s2
  | .okNoAudio =>
      if env.synthSupported then
        .ok { s1 with utterances := s1.utterances ++ [fallbackUtt text languageCode] }
      else
        .ok { s1 with isSpeaking := false }

/-- The `catch` block of `speak` (lines 156-168): clear the speaking flag,
then queue a fallback utterance when the platform supports synthesis. -/
def catchFallback (text languageCode : String) (synthSupported : Bool)
    (s : BState) : BState :=
  let s1 := { s with isSpeaking := false }
  if synthSupported then
    { s1 with utterances := s1.utterances ++ [fallbackUtt text languageCode] }
  else
    s1

/-- `speak` of `useTextToSpeech` (lines 111-169): run the body and let the
`catch` absorb any throw; the promise always settles as an outcome. -/
def speak (text languageCode : String) (env : BEnv) (s : BState) :
    BState × SpeakOutcome :=
  match speakBody text languageCode env s with
  | .ok s' => (s', .resolved)
  | .error s' => (catchFallback text languageCode env.synthSupported s', .resolved)

/-- `stopSpeaking` of `useTextToSpeech` (lines 171-182): identical in shape
to the enhanced hook's `stopSpeaking`; no object URL is revoked. -/
def stopSpeaking (synthSupported : Bool) (s : BState) : BState :=
  let audios :=
    match s.audioRef with
    | some i => pauseAudio i s.audios
    | none => s.audios
  { s with audios := audios, audioRef := none,
           utterances := if synthSupported then [] else s.utterances,
           isSpeaking := false }

/-- The number of simultaneously active audio/synthesis resources. -/
def activeCount (s : BState) : Nat :=
  (s.audios.filter (fun a => a.playing)).length + s.utterances.length

/-- The initial state of `useTextToSpeech`. -/
def bInit : BState :=
  { isSpeaking := false, audioRef := none, audios := [], liveUrls := [],
    utterances := [], nextId := 0, nextUrl := 0 }

end BasicTTS

/-! ### Concrete states used in witnesses and counterexamples -/

/-- The initial state of `useWebSpeechRecognition` on a supporting platform. -/
def captureInit : CaptureState :=
  { isListening := false, transcript := "", interimTranscript := "",
    error := none, isSupported := true, finalTranscriptRef := "" }

/-- The state after one successful backend `speak` from the initial state:
one audio element (id 0, object URL 0) is playing and referenced. -/
def sPlay : TTSState :=
  (speak "one" {} ⟨.okAudio, true, true, []⟩ ttsInit).1

/-! ### Helper lemmas -/

/-- The default-branch message of `recognition.onerror` never coincides with
one of the four fixed messages, because those do not start with 'S'. -/
theorem speechRecogMsg_ne (code msg : String) (hm : msg.data.head? ≠ some 'S') :
    "Speech recognition error: " ++ code ≠ msg := by
  intro h
  apply hm
  rw [← h, String.data_append]
  rfl

/-- After `pauseAudio i`, any element with identity `i` is not playing. -/
theorem pauseAudio_stops (i : Nat) (l : List AudioElem) :
    ∀ a ∈ pauseAudio i l, a.id = i → a.playing = false := by
  intro a ha hid
  simp only [pauseAudio, List.mem_map] at ha
  obtain ⟨x, -, hx⟩ := ha
  by_cases h : x.id = i
  · simp [h] at hx
    rw [← hx]
  · simp [h] at hx
    rw [← hx] at hid
    exact absurd hid h

/-- Unfolding the result loop of `onresult`: final segments extend the
accumulated final transcript, interim segments extend the interim one. -/
theorem onresult_foldl (ev : List RecResult) (f i : String) :
    ev.foldl
      (fun acc r =>
        if r.isFinal then (acc.1 ++ r.transcript, acc.2)
        else (acc.1, acc.2 ++ r.transcript)) (f, i) =
      (f ++ evFinal ev, i ++ evInterim ev) := by
  induction ev generalizing f i with
  | nil => simp [evFinal, evInterim]
  | cons r rs ih =>
      by_cases h : r.isFinal = true
      · simp [h, ih, evFinal, evInterim, String.append_assoc]
      · simp [h, ih, evFinal, evInterim, String.append_assoc]

/-- Field effect of one `onresult` event. -/
theorem onresult_fields (ev : List RecResult) (s : CaptureState) :
    (onresult ev s).finalTranscriptRef = s.finalTranscriptRef ++ evFinal ev ∧
    (onresult ev s).transcript = s.finalTranscriptRef ++ evFinal ev ∧
    (onresult ev s).interimTranscript = "" ++ evInterim ev ∧
    (onresult ev s).isListening = s.isListening ∧
    (onresult ev s).error = s.error := by
  simp [onresult, onresult_foldl]

/-- The final-transcript ref accumulates all final segments in order. -/
theorem processEvents_finalRef (evs : List (List RecResult)) (s : CaptureState) :
    (processEvents s evs).finalTranscriptRef = s.finalTranscriptRef ++ sessFinal evs := by
  induction evs generalizing s with
  | nil => simp [processEvents, sessFinal]
  | cons ev evs ih =>
      have h := ih (onresult ev s)
      simp only [processEvents, List.foldl_cons] at h ⊢
      rw [h, (onresult_fields ev s).1, sessFinal, String.append_assoc]

/-- After at least one event, the exposed transcript equals the ref. -/
theorem processEvents_transcript_eq_ref (evs : List (List RecResult))
    (s : CaptureState) (h : s.transcript = s.finalTranscriptRef) :
    (processEvents s evs).transcript = (processEvents s evs).finalTranscriptRef := by
  induction evs generalizing s with
  | nil => simpa [processEvents]
  | cons ev evs ih =>
      simp only [processEvents, List.foldl_cons] at ih ⊢
      exact ih (onresult ev s) (by rw [(onresult_fields ev s).2.1, (onresult_fields ev s).1])

/-- An event containing no final result contributes no final text. -/
theorem evFinal_of_no_final (ev : List RecResult)
    (h : ∀ r ∈ ev, r.isFinal = false) : evFinal ev = "" := by
  induction ev with
  | nil => rfl
  | cons r rs ih =>
      have hr := h r (by simp)
      simp only [evFinal, hr]
      simpa using ih (fun x hx => h x (by simp [hx]))

/-! ### Claim theorems -/

/-- C8: `reset()` clears `finalTranscript`, `interimTranscript`, and `error`,
and leaves the listening flag and every other field of the session state
unchanged. -/
theorem resetTranscript_frame (s : CaptureState) :
    (resetTranscript s).transcript = "" ∧
    (resetTranscript s).interimTranscript = "" ∧
    (resetTranscript s).finalTranscriptRef = "" ∧
    (resetTranscript s).error = none ∧
    (resetTranscript s).isListening = s.isListening ∧
    (resetTranscript s).isSupported = s.isSupported := by
  simp [resetTranscript]

/-- C5: every platform recognition error code is mapped per the fixed
`ErrorKind` table (no-speech, audio-capture, not-allowed, network, default)
and `isListening` is forced to `false`; in particular "not-allowed" yields
the permission-denied kind with listening `false`. -/
theorem onerror_error_mapping (code : String) (s : CaptureState) :
    (onerror code s).isListening = false ∧
    (onerror code s).error = some (errorMessage code) ∧
    messageKind (errorMessage code) = specErrorKind code ∧
    (code = "not-allowed" →
      messageKind (errorMessage code) = ErrorKind.permissionDenied) := by
  refine ⟨by simp [onerror], by simp [onerror], ?_, ?_⟩
  · by_cases h1 : code = "no-speech"
    · subst h1; decide
    by_cases h2 : code = "audio-capture"
    · subst h2; decide
    by_cases h3 : code = "not-allowed"
    · subst h3; decide
    by_cases h4 : code = "network"
    · subst h4; decide
    simp only [errorMessage, specErrorKind, h1, h2, h3, h4, if_false]
    rw [messageKind,
        if_neg (speechRecogMsg_ne code _ (by decide)),
        if_neg (speechRecogMsg_ne code _ (by decide)),
        if_neg (speechRecogMsg_ne code _ (by decide)),
        if_neg (speechRecogMsg_ne code _ (by decide))]
  · intro h
    subst h
    decide

/-- C5 witness: the "not-allowed" scenario at the initial capture state. -/
theorem onerror_error_mapping_witness :
    messageKind (errorMessage "not-allowed") = ErrorKind.permissionDenied ∧
    (onerror "not-allowed" captureInit).isListening = false :=
  ⟨(onerror_error_mapping "not-allowed" captureInit).2.2.2 rfl,
   (onerror_error_mapping "not-allowed" captureInit).1⟩

/-- C7: local synthesis selects the voice by the fixed policy: first a voice
with matching locale prefix whose name signals higher quality, else any
voice with matching locale prefix, else none (platform default unchanged). -/
theorem selectVoice_policy (languageCode : String) (voices : List Voice) :
    (∀ v, selectVoice languageCode voices = some v →
      voiceMatches languageCode v = true) ∧
    ((∃ v ∈ voices, voiceMatches languageCode v = true ∧ voiceGoogle v = true) →
      ∃ v, selectVoice languageCode voices = some v ∧
        voiceMatches languageCode v = true ∧ voiceGoogle v = true) ∧
    ((∃ v ∈ voices, voiceMatches languageCode v = true) →
      ∃ v, selectVoice languageCode voices = some v ∧
        voiceMatches languageCode v = true) ∧
    ((∀ v ∈ voices, voiceMatches languageCode v = false) →
      selectVoice languageCode voices = none) := by
  refine ⟨?_, ?_, ?_, ?_⟩
  · intro v hv
    rw [selectVoice] at hv
    cases hg : voices.find? (fun v => voiceMatches languageCode v && voiceGoogle v) with
    | some w =>
        rw [hg] at hv
        cases hv
        have hp := List.find?_some hg
        simp only [Bool.and_eq_true] at hp
        exact hp.1
    | none =>
        rw [hg] at hv
        exact List.find?_some hv
  · rintro ⟨v, hv, hmatch, hgoogle⟩
    have hsome : (voices.find? (fun v => voiceMatches languageCode v && voiceGoogle v)).isSome := by
      rw [List.find?_isSome]
      exact ⟨v, hv, by simp [hmatch, hgoogle]⟩
    obtain ⟨w, hw⟩ := Option.isSome_iff_exists.mp hsome
    have hpw := List.find?_some hw
    rw [Bool.and_eq_true] at hpw
    exact ⟨w, by rw [selectVoice, hw], hpw.1, hpw.2⟩
  · rintro ⟨v, hv, hmatch⟩
    rw [selectVoice]
    cases hg : voices.find? (fun v => voiceMatches languageCode v && voiceGoogle v) with
    | some w =>
        have hp := List.find?_some hg
        simp only [Bool.and_eq_true] at hp
        exact ⟨w, rfl, hp.1⟩
    | none =>
        have hsome : (voices.find? (fun v => voiceMatches languageCode v)).isSome := by
          rw [List.find?_isSome]
          exact ⟨v, hv, hmatch⟩
        obtain ⟨w, hw⟩ := Option.isSome_iff_exists.mp hsome
        exact ⟨w, by rw [hw], List.find?_some hw⟩
  · intro hnone
    rw [selectVoice]
    have h1 : voices.find? (fun v => voiceMatches languageCode v && voiceGoogle v) = none := by
      rw [List.find?_eq_none]
      intro x hx
      simp [hnone x hx]
    have h2 : voices.find? (fun v => voiceMatches languageCode v) = none := by
      rw [List.find?_eq_none]
      intro x hx
      simp [hnone x hx]
    rw [h1, h2]

/-- C7 witness: with an "en-US" request over a Telugu voice, a plain British
voice and a Google US voice, the Google voice is selected. -/
theorem selectVoice_policy_witness :
    ∃ v, selectVoice "en-US"
        [⟨"te-IN", "Telugu India"⟩, ⟨"en-GB", "Daniel"⟩, ⟨"en-US", "Google US English"⟩] = some v ∧
      voiceMatches "en-US" v = true ∧ voiceGoogle v = true :=
  (selectVoice_policy "en-US"
    [⟨"te-IN", "Telugu India"⟩, ⟨"en-GB", "Daniel"⟩, ⟨"en-US", "Google US English"⟩]).2.1
    ⟨⟨"en-US", "Google US English"⟩, by decide, by decide, by decide⟩

/-- C10: with no options, `speak` uses languageCode "en-US", rate 0.8,
pitch 1.0, volume 1.0, and prefers the backend path: with a successful
backend it creates and plays a backend audio element, and on the fallback
path it builds the utterance from exactly these defaults. -/
theorem speak_default_options :
    resolveOptions {} =
      { languageCode := "en-US", rate := 0.8, pitch := 1.0, volume := 1.0,
        useBackend := true } ∧
    (speak "hi" {} ⟨.okAudio, true, true, []⟩ ttsInit).1.audios =
      [{ id := 0, url := 0, playing := true }] ∧
    (speak "hi" {} ⟨.netError, true, true, []⟩ ttsInit).1.utterances =
      [{ text := "hi", lang := "en-US", rate := 0.8, pitch := 1.0,
         volume := 1.0, voice := none }] :=
  ⟨rfl, rfl, rfl⟩

/-- C2: within one capture session (transcripts start empty), final segments
are appended to the final transcript in arrival order and never revised,
each event replaces the interim transcript wholesale, and the final
transcript after any event sequence is the concatenation of all final
segments, unaffected by interim-only events received afterward. -/
theorem capture_transcript_correct (s : CaptureState)
    (evs : List (List RecResult))
    (h1 : s.finalTranscriptRef = "") (h2 : s.transcript = "") :
    (processEvents s evs).finalTranscriptRef = sessFinal evs ∧
    (processEvents s evs).transcript = sessFinal evs ∧
    (∀ ev : List RecResult,
      (processEvents s (evs ++ [ev])).interimTranscript = evInterim ev) ∧
    (∀ ev : List RecResult, (∀ r ∈ ev, r.isFinal = false) →
      (processEvents s (evs ++ [ev])).transcript = (processEvents s evs).transcript ∧
      (processEvents s (evs ++ [ev])).finalTranscriptRef =
        (processEvents s evs).finalTranscriptRef) := by
  have href : (processEvents s evs).finalTranscriptRef = sessFinal evs := by
    rw [processEvents_finalRef, h1]
    simp
  have htr : (processEvents s evs).transcript = sessFinal evs := by
    rw [processEvents_transcript_eq_ref evs s (by rw [h1, h2]), href]
  have happ : ∀ ev : List RecResult,
      processEvents s (evs ++ [ev]) = onresult ev (processEvents s evs) := by
    intro ev
    simp [processEvents, List.foldl_append]
  refine ⟨href, htr, ?_, ?_⟩
  · intro ev
    rw [happ ev]
    have h := (onresult_fields ev (processEvents s evs)).2.2.1
    simpa using h
  · intro ev hev
    rw [happ ev, (onresult_fields ev (processEvents s evs)).2.1,
        (onresult_fields ev (processEvents s evs)).1,
        evFinal_of_no_final ev hev, htr, href]
    simp

/-- C2 witness: two interim updates then one final segment give final
transcript "hello world" with the last interim replaced wholesale. -/
theorem capture_transcript_correct_witness :
    (processEvents captureInit
      [[⟨"hel", false⟩], [⟨"hello wor", false⟩], [⟨"hello world", true⟩]]).transcript =
      "hello world" ∧
    (processEvents captureInit
      [[⟨"hel", false⟩], [⟨"hello wor", false⟩], [⟨"hello world", true⟩]]).interimTranscript =
      "" := by
  have h := capture_transcript_correct captureInit
    [[⟨"hel", false⟩], [⟨"hello wor", false⟩], [⟨"hello world", true⟩]] rfl rfl
  exact ⟨h.2.1.trans (by decide), by decide⟩

/-- C1 counterexample: from a state with one playing, referenced audio
element, a second successful backend `speak` settles with TWO active audio
resources; the previous element is still playing and its object URL is still
live, so the previous resource was neither stopped nor released. -/
theorem speak_overlap_counterexample :
    activeCount sPlay = 1 ∧
    sPlay.audioRef = some 0 ∧
    activeCount (speak "two" {} ⟨.okAudio, true, true, []⟩ sPlay).1 = 2 ∧
    activeCount (speak "two" {} ⟨.okAudio, true, true, []⟩ sPlay).1 ≠ 1 ∧
    ((speak "two" {} ⟨.okAudio, true, true, []⟩ sPlay).1.audios.filter
        (fun a => a.id = 0)) = [{ id := 0, url := 0, playing := true }] ∧
    0 ∈ (speak "two" {} ⟨.okAudio, true, true, []⟩ sPlay).1.liveUrls := by
  refine ⟨rfl, rfl, rfl, by decide, rfl, by decide⟩

/-- C1 amended: a new backend `speak` while audio is active does not stop or
release the previous resource; it creates a fresh element and URL, overwrites
only the handle reference, and the active-resource count increases by one.
The same holds for `useTextToSpeech.speak`. -/
theorem speak_keeps_previous_active (text : String) (opts : SpeakOptions)
    (env : SpeakEnv) (s : TTSState)
    (hUse : (resolveOptions opts).useBackend = true)
    (hB : env.backend = .okAudio) (hP : env.playOk = true) :
    (speak text opts env s).1.audios =
      s.audios ++ [{ id := s.nextId, url := s.nextUrl, playing := true }] ∧
    (speak text opts env s).1.audioRef = some s.nextId ∧
    (speak text opts env s).1.liveUrls = s.liveUrls ++ [s.nextUrl] ∧
    (speak text opts env s).1.utterances = s.utterances ∧
    activeCount (speak text opts env s).1 = activeCount s + 1 ∧
    (∀ (t2 l2 : String) (benv : BasicTTS.BEnv) (t : BasicTTS.BState),
      benv.resp = .okAudio → benv.playOk = true →
      (BasicTTS.speak t2 l2 benv t).1.audios =
        t.audios ++ [{ id := t.nextId, url := t.nextUrl, playing := true }] ∧
      (BasicTTS.speak t2 l2 benv t).1.audioRef = some t.nextId ∧
      BasicTTS.activeCount (BasicTTS.speak t2 l2 benv t).1 =
        BasicTTS.activeCount t + 1) := by
  obtain ⟨b, p, ss, vs⟩ := env
  simp only at hB hP
  subst hB hP
  refine ⟨?_, ?_, ?_, ?_, ?_, ?_⟩
  · simp [speak, speakBody, hUse]
  · simp [speak, speakBody, hUse]
  · simp [speak, speakBody, hUse]
  · simp [speak, speakBody, hUse]
  · simp [speak, speakBody, hUse, activeCount, List.filter_append]
    omega
  · intro t2 l2 benv t hr hp
    obtain ⟨r2, p2, s2⟩ := benv
    simp only at hr hp
    subst hr hp
    refine ⟨?_, ?_, ?_⟩
    · simp [BasicTTS.speak, BasicTTS.speakBody]
    · simp [BasicTTS.speak, BasicTTS.speakBody]
    · simp [BasicTTS.speak, BasicTTS.speakBody, BasicTTS.activeCount,
        List.filter_append]
      omega

/-- C1 amended witness: the second `speak` on top of `sPlay`. -/
theorem speak_keeps_previous_active_witness :
    (speak "two" {} ⟨.okAudio, true, true, []⟩ sPlay).1.audios =
      sPlay.audios ++ [{ id := sPlay.nextId, url := sPlay.nextUrl, playing := true }] ∧
    activeCount (speak "two" {} ⟨.okAudio, true, true, []⟩ sPlay).1 =
      activeCount sPlay + 1 :=
  ⟨(speak_keeps_previous_active "two" {} ⟨.okAudio, true, true, []⟩ sPlay rfl rfl rfl).1,
   (speak_keeps_previous_active "two" {} ⟨.okAudio, true, true, []⟩ sPlay rfl rfl rfl).2.2.2.2.1⟩

/-- C4 counterexample: from a state holding one playing audio element whose
object URL is live, explicit `stopSpeaking` clears the speaking flag and
drops the handle but the temporary object URL remains live: the resource is
not released on the explicit-stop exit path. -/
theorem stopSpeaking_leaks_url_counterexample :
    sPlay.liveUrls = [0] ∧
    (stopSpeaking true sPlay).isSpeaking = false ∧
    (stopSpeaking true sPlay).audioRef = none ∧
    (stopSpeaking true sPlay).liveUrls = [0] := by
  refine ⟨rfl, rfl, rfl, rfl⟩

/-- C4 amended: on playback completion and playback error the speaking flag
is cleared and the element's object URL revoked; on synthesis completion and
error the flag is cleared; explicit `stopSpeaking` clears the flag and drops
the handle but does not revoke the temporary object URL. -/
theorem tts_exit_paths (s : TTSState) (a : AudioElem) (e : String) (b : Bool) :
    ((audioOnEnded a s).isSpeaking = false ∧
     (audioOnEnded a s).liveUrls = s.liveUrls.erase a.url) ∧
    ((audioOnError a s).isSpeaking = false ∧
     (audioOnError a s).liveUrls = s.liveUrls.erase a.url) ∧
    (uttOnEnd s).isSpeaking = false ∧
    (uttOnError e s).isSpeaking = false ∧
    ((stopSpeaking b s).isSpeaking = false ∧
     (stopSpeaking b s).audioRef = none ∧
     (stopSpeaking b s).liveUrls = s.liveUrls) := by
  refine ⟨⟨rfl, rfl⟩, ⟨rfl, rfl⟩, rfl, rfl, rfl, rfl, rfl⟩

/-- C6: `stopSpeaking` always clears the speaking flag, drops the playback
handle (the referenced audio stops playing), cancels queued synthesis when
the platform has it, is idempotent, and with nothing active changes nothing
except forcing the speaking flag to `false`; likewise for the basic hook. -/
theorem stopSpeaking_idempotent (b : Bool) (s : TTSState) (t : BasicTTS.BState) :
    (stopSpeaking b s).isSpeaking = false ∧
    (stopSpeaking b s).audioRef = none ∧
    (b = true → (stopSpeaking b s).utterances = []) ∧
    (∀ i, s.audioRef = some i →
      ∀ a ∈ (stopSpeaking b s).audios, a.id = i → a.playing = false) ∧
    stopSpeaking b (stopSpeaking b s) = stopSpeaking b s ∧
    (s.audioRef = none → s.utterances = [] →
      stopSpeaking b s = { s with isSpeaking := false }) ∧
    ((BasicTTS.stopSpeaking b t).isSpeaking = false ∧
     BasicTTS.stopSpeaking b (BasicTTS.stopSpeaking b t) = BasicTTS.stopSpeaking b t ∧
     (t.audioRef = none → t.utterances = [] →
       BasicTTS.stopSpeaking b t = { t with isSpeaking := false })) := by
  refine ⟨rfl, rfl, ?_, ?_, ?_, ?_, rfl, ?_, ?_⟩
  · intro hb
    subst hb
    rfl
  · intro i hi a ha
    rw [stopSpeaking] at ha
    simp only [hi] at ha
    exact pauseAudio_stops i s.audios a ha
  · cases b <;> simp [stopSpeaking]
  · intro h1 h2
    cases b <;> simp [stopSpeaking, h1, h2]
  · cases b <;> simp [BasicTTS.stopSpeaking]
  · intro h1 h2
    cases b <;> simp [BasicTTS.stopSpeaking, h1, h2]

/-- C6 witness: stopping twice from the one-audio-playing state equals
stopping once, and stopping the empty basic state only clears the flag. -/
theorem stopSpeaking_idempotent_witness :
    stopSpeaking true (stopSpeaking true sPlay) = stopSpeaking true sPlay ∧
    BasicTTS.stopSpeaking true BasicTTS.bInit =
      { BasicTTS.bInit with isSpeaking := false } :=
  ⟨(stopSpeaking_idempotent true sPlay BasicTTS.bInit).2.2.2.2.1,
   (stopSpeaking_idempotent true sPlay BasicTTS.bInit).2.2.2.2.2.2.2.2 rfl rfl⟩

/-- C9: the promise returned by `speak` always resolves, in both hooks; a
failure that escapes the body is absorbed by the outer catch, which reports
it only by setting the error state and clearing the speaking flag. -/
theorem speak_always_resolves :
    (∀ (text : String) (opts : SpeakOptions) (env : SpeakEnv) (s : TTSState),
      (speak text opts env s).2 = SpeakOutcome.resolved) ∧
    (∀ (text : String) (opts : SpeakOptions) (env : SpeakEnv) (s : TTSState)
        (msg : String) (sE : TTSState),
      speakBody text (resolveOptions opts) env s = .error (msg, sE) →
      (speak text opts env s).1.error = some msg ∧
      (speak text opts env s).1.isSpeaking = false) ∧
    (∀ (text languageCode : String) (env : BasicTTS.BEnv) (s : BasicTTS.BState),
      (BasicTTS.speak text languageCode env s).2 = SpeakOutcome.resolved ∧
      ((∃ sE, BasicTTS.speakBody text languageCode env s = .error sE) →
        env.synthSupported = false →
        (BasicTTS.speak text languageCode env s).1.isSpeaking = false)) := by
  refine ⟨?_, ?_, ?_⟩
  · intro text opts env s
    rw [speak]
    rcases speakBody text (resolveOptions opts) env s with s' | ⟨msg, s'⟩ <;> rfl
  · intro text opts env s msg sE h
    rw [speak, h]
    exact ⟨rfl, rfl⟩
  · intro text languageCode env s
    constructor
    · rw [BasicTTS.speak]
      rcases BasicTTS.speakBody text languageCode env s with s' | s' <;> rfl
    · rintro ⟨sE, h⟩ hs
      rw [BasicTTS.speak, h]
      simp [BasicTTS.catchFallback, hs]

/-- C9 witness: backend network failure with synthesis unavailable still
resolves, reporting the failure through the error state and the flag. -/
theorem speak_always_resolves_witness :
    (speak "x" {} ⟨.netError, true, false, []⟩ ttsInit).1.error =
      some "Text-to-speech not supported in this browser" ∧
    (speak "x" {} ⟨.netError, true, false, []⟩ ttsInit).1.isSpeaking = false :=
  speak_always_resolves.2.1 "x" {} ⟨.netError, true, false, []⟩ ttsInit
    "Text-to-speech not supported in this browser"
    { ttsInit with isSpeaking := true, error := none } rfl

/-- C3: when the backend path is preferred and the backend render fails in
any way (network failure, non-ok status, or a response without
audio_content), `speak` still attempts local synthesis: it queues exactly
one utterance built from the request, and no error is surfaced — neither at
the call nor after the utterance completes. -/
theorem speak_backend_failure_falls_back (text : String) (opts : SpeakOptions)
    (env : SpeakEnv) (s : TTSState)
    (hUse : (resolveOptions opts).useBackend = true)
    (hB : env.backend ≠ .okAudio)
    (hS : env.synthSupported = true) :
    (speak text opts env s).2 = SpeakOutcome.resolved ∧
    (speak text opts env s).1.utterances = s.utterances ++
      [{ text := text, lang := (resolveOptions opts).languageCode,
         rate := (resolveOptions opts).rate,
         pitch := (resolveOptions opts).pitch,
         volume := (resolveOptions opts).volume,
         voice := selectVoice (resolveOptions opts).languageCode env.voices }] ∧
    (speak text opts env s).1.error = none ∧
    (uttOnEnd (speak text opts env s).1).error = none ∧
    (uttOnEnd (speak text opts env s).1).isSpeaking = false := by
  obtain ⟨b, p, ss, vs⟩ := env
  simp only at hB hS
  subst hS
  cases b with
  | okAudio => exact absurd rfl hB
  | netError =>
      refine ⟨?_, ?_, ?_, ?_, ?_⟩ <;>
        simp [speak, speakBody, synthFallback, hUse, uttOnEnd]
  | notOk =>
      refine ⟨?_, ?_, ?_, ?_, ?_⟩ <;>
        simp [speak, speakBody, synthFallback, hUse, uttOnEnd]
  | okNoAudio =>
      refine ⟨?_, ?_, ?_, ?_, ?_⟩ <;>
        simp [speak, speakBody, synthFallback, hUse, uttOnEnd]

/-- C3 witness: a network failure with default options falls back to one
queued utterance and surfaces no error. -/
theorem speak_backend_failure_falls_back_witness :
    (speak "Hi" {} ⟨.netError, true, true, []⟩ ttsInit).2 = SpeakOutcome.resolved ∧
    (speak "Hi" {} ⟨.netError, true, true, []⟩ ttsInit).1.utterances =
      ttsInit.utterances ++
      [{ text := "Hi", lang := (resolveOptions {}).languageCode,
         rate := (resolveOptions {}).rate,
         pitch := (resolveOptions {}).pitch,
         volume := (resolveOptions {}).volume,
         voice := selectVoice (resolveOptions {}).languageCode [] }] ∧
    (speak "Hi" {} ⟨.netError, true, true, []⟩ ttsInit).1.error = none ∧
    (uttOnEnd (speak "Hi" {} ⟨.netError, true, true, []⟩ ttsInit).1).error = none ∧
    (uttOnEnd (speak "Hi" {} ⟨.netError, true, true, []⟩ ttsInit).1).isSpeaking = false :=
  speak_backend_failure_falls_back "Hi" {} ⟨.netError, true, true, []⟩ ttsInit
    rfl (by decide) rfl

end MyAgent
